import Mathlib

/-!
Verification development for the Tiered Validation Orchestrator of the
python-agent-kit repository.  The two orchestration entry points are
`.agent/scripts/checklist.py` (core checklist, 300 s timeout, unconditional
stop-on-required-failure for the core phase) and
`.agent/scripts/verify_all.py` (full verification suite, 600 s timeout,
stop-on-required-failure behind the `--stop-on-fail` flag).

The embedding models one external check script by its observable behaviour
(`ScriptBehavior`): absent file, a process that runs for a wall-clock
duration and exits with a code, or a launch-level exception.  The executor
(`runScript`, embedding `run_script` of both scripts) turns a behaviour into
the result record the Python code builds; the orchestration loops and the
`main` functions are embedded directly from the source control flow.
-/

namespace AgentKit

/-- Observable behaviour of one external check script, as the executor can
see it: the script file is absent; the process runs for `duration` seconds
and exits with `exitCode` writing `out`/`err`; or launching or waiting on
the process raises an exception with message `msg` (caught by the broad
`except Exception` handler in both scripts). -/
inductive ScriptBehavior where
  | absent : ScriptBehavior
  | runs (duration : Nat) (exitCode : Int) (out err : String) : ScriptBehavior
  | raises (msg : String) : ScriptBehavior
deriving DecidableEq, Repr

/-- The result dict built by `run_script` in both scripts: keys `name`,
`passed`, `output`, `error`, `skipped`, plus `category` (set by
`verify_all.py` after the call) and `duration` (tracked by `verify_all.py`;
immaterial in `checklist.py`, defaulted to 0). -/
structure CheckResult where
  name : String
  passed : Bool
  output : String := ""
  error : String := ""
  skipped : Bool
  category : String := ""
  duration : Nat := 0
deriving DecidableEq, Repr

/-- The five spec-level outcomes of a considered descriptor. -/
inductive CheckOutcome where
  | passed | failed | timedOut | errored | skipped
deriving DecidableEq, Repr

/-- An environment assigns a behaviour to every script path (the executor
looks scripts up by the joined path `project_path / relative_path`). -/
abbrev Env : Type := String → ScriptBehavior

/-- Timeout passed to `subprocess.run` in `checklist.py` (line 77). -/
def CHECKLIST_TIMEOUT : Nat := 300

/-- Timeout passed to `subprocess.run` in `verify_all.py` (line 120). -/
def VERIFY_ALL_TIMEOUT : Nat := 600

/-- Embedding of `run_script` (both scripts, parameterised by the timeout):
missing file returns a skipped-but-passed record without spawning; a process
that outlives the timeout raises `subprocess.TimeoutExpired`, answered with
`passed = False, error = "Timeout"`; a completed process yields
`passed = (returncode == 0)` with captured stdout/stderr; any other
exception is caught and recorded with its message as the error field. -/
def runScript (tmo : Nat) (b : ScriptBehavior) (nm : String) : CheckResult :=
  match b with
  | .absent =>
      { name := nm, passed := true, output := "", error := "", skipped := true,
        category := "", duration := 0 }
  | .runs d code out err =>
      if tmo < d then
        { name := nm, passed := false, output := "", error := "Timeout", skipped := false,
          category := "", duration := tmo }
      else
        { name := nm, passed := (code == 0), output := out, error := err, skipped := false,
          category := "", duration := d }
  | .raises msg =>
      { name := nm, passed := false, output := "", error := msg, skipped := false,
        category := "", duration := 0 }

/-- The executor of `checklist.py` (`run_script`, timeout 300). -/
def runScriptChecklist : ScriptBehavior → String → CheckResult :=
  runScript CHECKLIST_TIMEOUT

/-- The executor of `verify_all.py` (`run_script`, timeout 600). -/
def runScriptVerifyAll : ScriptBehavior → String → CheckResult :=
  runScript VERIFY_ALL_TIMEOUT

/-- Spec-level classification of the branch `run_script` takes on a given
behaviour: absent file is `Skipped`, an over-budget process is `TimedOut`,
exit code 0 is `Passed`, a non-zero exit is `Failed`, and a launch-level
exception is `Errored`. -/
def classify (tmo : Nat) : ScriptBehavior → CheckOutcome
  | .absent => .skipped
  | .runs d code _ _ =>
      if tmo < d then .timedOut else if code == 0 then .passed else .failed
  | .raises _ => .errored

/-- The predicate counted by `failed_count` in `print_summary` and
`print_final_report`: `not r["passed"] and not r.get("skipped")`.  It is
also the result-side reading of outcome in {Failed, TimedOut, Errored}. -/
def isFailureOutcome (r : CheckResult) : Bool :=
  !r.passed && !r.skipped

/-- A descriptor as stored in the catalogs: `(name, script_path, required)`. -/
abbrev CheckTriple : Type := String × String × Bool

/-- `CORE_CHECKS` of `checklist.py` (lines 33-39). -/
def CORE_CHECKS : List CheckTriple :=
  [("Security Scan", ".agent/skills/vulnerability-scanner/scripts/security_scan.py", true),
   ("Lint Check", ".agent/skills/lint-and-validate/scripts/lint_runner.py", true),
   ("Schema Validation", ".agent/skills/database-design/scripts/schema_validator.py", false),
   ("Test Runner", ".agent/skills/testing-patterns/scripts/test_runner.py", false),
   ("UX Audit", ".agent/skills/frontend-design/scripts/ux_audit.py", false)]

/-- `PERFORMANCE_CHECKS` of `checklist.py` (lines 41-44). -/
def PERFORMANCE_CHECKS : List CheckTriple :=
  [("Lighthouse Audit", ".agent/skills/performance-profiling/scripts/lighthouse_audit.py", true),
   ("Playwright E2E", ".agent/skills/webapp-testing/scripts/playwright_runner.py", false)]

/-- One entry of `VERIFICATION_SUITE` in `verify_all.py`: a category name,
its `requires_url` flag (absent keys read as `False` via `.get`), and its
ordered check list. -/
structure Category where
  category : String
  requiresUrl : Bool
  checks : List CheckTriple
deriving DecidableEq

/-- `VERIFICATION_SUITE` of `verify_all.py` (lines 36-96). -/
def VERIFICATION_SUITE : List Category :=
  [{ category := "Security", requiresUrl := false,
     checks := [("Security Scan", ".agent/skills/vulnerability-scanner/scripts/security_scan.py", true)] },
   { category := "Code Quality", requiresUrl := false,
     checks := [("Lint Check", ".agent/skills/lint-and-validate/scripts/lint_runner.py", true),
                ("Type Coverage", ".agent/skills/lint-and-validate/scripts/type_coverage.py", false)] },
   { category := "Data Layer", requiresUrl := false,
     checks := [("Schema Validation", ".agent/skills/database-design/scripts/schema_validator.py", false)] },
   { category := "Testing", requiresUrl := false,
     checks := [("Test Suite", ".agent/skills/testing-patterns/scripts/test_runner.py", false)] },
   { category := "UX & Accessibility", requiresUrl := false,
     checks := [("UX Audit", ".agent/skills/frontend-design/scripts/ux_audit.py", false),
                ("Accessibility Check", ".agent/skills/frontend-design/scripts/accessibility_checker.py", false)] },
   { category := "Performance", requiresUrl := true,
     checks := [("Lighthouse Audit", ".agent/skills/performance-profiling/scripts/lighthouse_audit.py", true)] },
   { category := "E2E Testing", requiresUrl := true,
     checks := [("Playwright E2E", ".agent/skills/webapp-testing/scripts/playwright_runner.py", false)] }]

/-- Python truthiness of the optional `--url` argument: `None` and the
empty string are falsy. -/
def urlTruthy : Option String → Bool
  | none => false
  | some u => u != ""

/-- Character-list version of the Python `in` test on strings:
`startsWithCL pat s` holds when `pat` begins `s`. -/
def startsWithCL : List Char → List Char → Bool
  | [], _ => true
  | _ :: _, [] => false
  | a :: as, b :: bs => a == b && startsWithCL as bs

/-- `hasInfixCL pat s` holds when `pat` occurs contiguously inside `s`. -/
def hasInfixCL (pat : List Char) : List Char → Bool
  | [] => startsWithCL pat []
  | b :: rest => startsWithCL pat (b :: rest) || hasInfixCL pat rest

/-- Python `pat in s` on strings. -/
def strContains (s pat : String) : Bool :=
  hasInfixCL pat.toList s.toList

/-- `Path.name`: the final component of a slash-separated path. -/
def fileName (p : String) : String :=
  (p.splitOn "/").getLastD ""

/-- The URL-awareness test of both scripts (`checklist.py` line 67,
`verify_all.py` line 110): the lower-cased script filename contains
"lighthouse" or "playwright". -/
def urlAware (scriptPath : String) : Bool :=
  strContains (fileName scriptPath).toLower "lighthouse" ||
  strContains (fileName scriptPath).toLower "playwright"

/-- Command construction of `run_script` in both scripts:
`cmd = ["python", str(script_path), project_path]`, with the URL appended
when the URL argument is truthy and the script is URL-aware. -/
def buildCmd (scriptPath projectPath : String) (url : Option String) : List String :=
  match url with
  | some u =>
      if u != "" && urlAware scriptPath then
        ["python", scriptPath, projectPath, u]
      else
        ["python", scriptPath, projectPath]
  | none => ["python", scriptPath, projectPath]

/-- `result["category"] = category` in `verify_all.py` line 272. -/
def tagCategory (cat : String) (r : CheckResult) : CheckResult :=
  { r with category := cat }

/-- `failed_count` as computed by `print_summary` / `print_final_report`:
results with `passed` false and `skipped` false. -/
def failedCount (rs : List CheckResult) : Nat :=
  rs.countP isFailureOutcome

/-- Return value of `print_summary` / `print_final_report`: true when no
executed check failed. -/
def printSummary (rs : List CheckResult) : Bool :=
  failedCount rs == 0

/-- Names of the results accumulated in a report, in order. -/
def reportNames (rs : List CheckResult) : List String :=
  rs.map (fun r => r.name)

/-- Names of all descriptors of a category list, flattened in catalog
order. -/
def catalogNames : List Category → List String
  | [] => []
  | c :: cs => c.checks.map (fun t => t.1) ++ catalogNames cs

/-- The categories of `verify_all.py` that survive the two `continue`
guards of `main` (lines 260-265): URL-requiring categories when the URL is
falsy, and the E2E category when `--no-e2e` is set. -/
def gatedCatalog (u : String) (noE2e : Bool) (cats : List Category) : List Category :=
  cats.filter fun c =>
    !(c.requiresUrl && (u == "")) && !(noE2e && (c.category == "E2E Testing"))

/-- The core loop of `checklist.py` `main` (lines 178-187): run each core
check, append its result, and stop immediately (returning the report so far
and an aborted flag) when a required check has an executed failure.  The
Python loop appends into a growing `results` list and breaks out via
`sys.exit(1)`; the returned list here is that list, the flag records
whether the exit was taken. -/
def checklistCoreLoop (env : Env) (pp : String) : List CheckTriple → List CheckResult × Bool
  | [] => ([], false)
  | (nm, rel, req) :: rest =>
      let r := runScriptChecklist (env (pp ++ "/" ++ rel)) nm
      if req && isFailureOutcome r then
        ([r], true)
      else
        let pr := checklistCoreLoop env pp rest
        (r :: pr.1, pr.2)

/-- The performance loop of `checklist.py` `main` (lines 192-195): results
are appended unconditionally, with no abort test. -/
def checklistPerfResults (env : Env) (pp : String) (checks : List CheckTriple) : List CheckResult :=
  checks.map fun t => runScriptChecklist (env (pp ++ "/" ++ t.2.1)) t.1

/-- `main` of `checklist.py` after argument parsing, modelled from the
resolved project path onward.  A missing project path exits 1 with no
checks run (lines 165-167).  Core checks run with the unconditional
required-failure abort; performance checks run only when `args.url` is
truthy and `--skip-performance` is not set; the final exit code is 0
exactly when `print_summary` reports no failed check. -/
def checklistMain (env : Env) (projectExists : Bool) (pp : String)
    (url : Option String) (skipPerf : Bool) : List CheckResult × Nat :=
  if !projectExists then ([], 1)
  else
    let core := checklistCoreLoop env pp CORE_CHECKS
    if core.2 then (core.1, 1)
    else
      let results :=
        if urlTruthy url && !skipPerf then
          core.1 ++ checklistPerfResults env pp PERFORMANCE_CHECKS
        else core.1
      (results, if printSummary results then 0 else 1)

/-- The inner check loop of `verify_all.py` `main` (lines 269-279): run
each check of a category, tag the result with the category, append it, and
abort (exiting 1 after printing the report) when `--stop-on-fail` is set
and a required check has an executed failure. -/
def verifyChecksLoop (env : Env) (pp cat : String) (stopOnFail : Bool) :
    List CheckTriple → List CheckResult × Bool
  | [] => ([], false)
  | (nm, rel, req) :: rest =>
      let r := tagCategory cat (runScriptVerifyAll (env (pp ++ "/" ++ rel)) nm)
      if stopOnFail && req && isFailureOutcome r then
        ([r], true)
      else
        let pr := verifyChecksLoop env pp cat stopOnFail rest
        (r :: pr.1, pr.2)

/-- The category loop of `verify_all.py` `main` (lines 255-279): skip a
category when it requires a URL and the URL is falsy, or when it is the E2E
category and `--no-e2e` is set; otherwise run its checks, propagating an
abort from the inner loop without touching later categories. -/
def verifySuiteLoop (env : Env) (pp u : String) (noE2e stopOnFail : Bool) :
    List Category → List CheckResult × Bool
  | [] => ([], false)
  | c :: cats =>
      if c.requiresUrl && (u == "") then
        verifySuiteLoop env pp u noE2e stopOnFail cats
      else if noE2e && (c.category == "E2E Testing") then
        verifySuiteLoop env pp u noE2e stopOnFail cats
      else
        let pr := verifyChecksLoop env pp c.category stopOnFail c.checks
        if pr.2 then (pr.1, true)
        else
          let pr2 := verifySuiteLoop env pp u noE2e stopOnFail cats
          (pr.1 ++ pr2.1, pr2.2)

/-- `main` of `verify_all.py`.  The `--url` argument is declared with
`required=True` (line 234); CPython argparse reports a missing required
argument as a usage error and exits with status 2 before any further code
runs, which is modelled by the `none` branch.  A missing project path exits
1 with no checks run (lines 242-244).  Otherwise the suite loop runs; an
abort prints the report and exits 1, and a completed run exits 0 exactly
when `print_final_report` reports no failed check. -/
def verifyAllMain (env : Env) (projectExists : Bool) (pp : String)
    (url : Option String) (noE2e stopOnFail : Bool) : List CheckResult × Nat :=
  match url with
  | none => ([], 2)
  | some u =>
      if !projectExists then ([], 1)
      else
        let pr := verifySuiteLoop env pp u noE2e stopOnFail VERIFICATION_SUITE
        if pr.2 then (pr.1, 1)
        else (pr.1, if printSummary pr.1 then 0 else 1)

/-! ### Helper lemmas -/

/-- The executor never changes the check name. -/
theorem runScript_name (tmo : Nat) (b : ScriptBehavior) (nm : String) :
    (runScript tmo b nm).name = nm := by
  cases b with
  | absent => rfl
  | runs d code out err => simp only [runScript]; split <;> rfl
  | raises msg => rfl

/-- Tagging a result with its category keeps the name. -/
theorem tagCategory_name (cat : String) (r : CheckResult) :
    (tagCategory cat r).name = r.name := rfl

/-- Tagging a result with its category keeps its verdict contribution. -/
theorem isFailureOutcome_tagCategory (cat : String) (r : CheckResult) :
    isFailureOutcome (tagCategory cat r) = isFailureOutcome r := rfl

/-- Bridge between the result record and the spec-level outcome: a result
counts as failed in the summaries exactly when the behaviour classifies as
Failed, TimedOut or Errored. -/
theorem isFailureOutcome_runScript (tmo : Nat) (b : ScriptBehavior) (nm : String) :
    isFailureOutcome (runScript tmo b nm) = true ↔
      (classify tmo b = .failed ∨ classify tmo b = .timedOut ∨ classify tmo b = .errored) := by
  cases b with
  | absent => simp [runScript, classify, isFailureOutcome]
  | raises msg => simp [runScript, classify, isFailureOutcome]
  | runs d code out err =>
    by_cases h : tmo < d
    · simp [runScript, classify, isFailureOutcome, h]
    · by_cases hc : (code == 0) = true
      · simp [runScript, classify, isFailureOutcome, h, hc]
      · simp [runScript, classify, isFailureOutcome, h, hc]

/-- `print_summary` / `print_final_report` return true exactly when no
result in the report is an executed failure. -/
theorem printSummary_true_iff (rs : List CheckResult) :
    printSummary rs = true ↔ ∀ r ∈ rs, isFailureOutcome r = false := by
  simp [printSummary, failedCount, List.countP_eq_zero]

/-- When the summaries report failure, some result is an executed failure. -/
theorem printSummary_false_failing (rs : List CheckResult) (h : printSummary rs = false) :
    ∃ r ∈ rs, isFailureOutcome r = true := by
  have hne : failedCount rs ≠ 0 := by
    simpa [printSummary] using h
  have hpos : 0 < failedCount rs := Nat.pos_of_ne_zero hne
  exact List.countP_pos_iff.mp hpos

/-- The core-loop report names are always an initial segment of the core
catalog names. -/
theorem checklistCoreLoop_names_ex (env : Env) (pp : String) (checks : List CheckTriple) :
    ∃ t, reportNames (checklistCoreLoop env pp checks).1 ++ t =
      checks.map (fun c => c.1) := by
  induction checks with
  | nil => exact ⟨[], rfl⟩
  | cons c rest ih =>
    obtain ⟨nm, rel, req⟩ := c
    simp only [checklistCoreLoop]
    split
    · exact ⟨rest.map (fun c => c.1),
        by simp [reportNames, runScriptChecklist, runScript_name]⟩
    · obtain ⟨t, ht⟩ := ih
      exact ⟨t, by simp [reportNames, runScriptChecklist, runScript_name] at ht ⊢; exact ht⟩

/-- A completed (non-aborted) core loop reports every core check once, in
catalog order. -/
theorem checklistCoreLoop_not_aborted_names (env : Env) (pp : String)
    (checks : List CheckTriple) (h : (checklistCoreLoop env pp checks).2 = false) :
    reportNames (checklistCoreLoop env pp checks).1 = checks.map (fun c => c.1) := by
  induction checks with
  | nil => rfl
  | cons c rest ih =>
    obtain ⟨nm, rel, req⟩ := c
    simp only [checklistCoreLoop] at h ⊢
    by_cases hcond :
        (req && isFailureOutcome (runScriptChecklist (env (pp ++ "/" ++ rel)) nm)) = true
    · rw [if_pos hcond] at h
      simp at h
    · rw [if_neg hcond] at h ⊢
      have hrec := ih h
      simp [reportNames, runScriptChecklist, runScript_name] at hrec ⊢
      exact hrec

/-- An aborted core loop contains the executed failure that caused it. -/
theorem checklistCoreLoop_abort_failing (env : Env) (pp : String)
    (checks : List CheckTriple) (h : (checklistCoreLoop env pp checks).2 = true) :
    ∃ r ∈ (checklistCoreLoop env pp checks).1, isFailureOutcome r = true := by
  induction checks with
  | nil => simp [checklistCoreLoop] at h
  | cons c rest ih =>
    obtain ⟨nm, rel, req⟩ := c
    simp only [checklistCoreLoop] at h ⊢
    by_cases hcond :
        (req && isFailureOutcome (runScriptChecklist (env (pp ++ "/" ++ rel)) nm)) = true
    · have hf : isFailureOutcome (runScriptChecklist (env (pp ++ "/" ++ rel)) nm) = true := by
        have hc := hcond
        simp only [Bool.and_eq_true] at hc
        exact hc.2
      rw [if_pos hcond]
      exact ⟨_, List.mem_singleton.mpr rfl, hf⟩
    · rw [if_neg hcond] at h ⊢
      obtain ⟨r, hr, hf⟩ := ih h
      exact ⟨r, List.mem_cons_of_mem _ hr, hf⟩

/-- The performance loop records exactly the performance check names, in
order, whatever the environment does. -/
theorem checklistPerfResults_names (env : Env) (pp : String) (checks : List CheckTriple) :
    reportNames (checklistPerfResults env pp checks) = checks.map (fun c => c.1) := by
  simp [checklistPerfResults, reportNames, runScriptChecklist, runScript_name]

/-- The inner verify loop names are always an initial segment of the
category check names. -/
theorem verifyChecksLoop_names_ex (env : Env) (pp cat : String) (sof : Bool)
    (checks : List CheckTriple) :
    ∃ t, reportNames (verifyChecksLoop env pp cat sof checks).1 ++ t =
      checks.map (fun c => c.1) := by
  induction checks with
  | nil => exact ⟨[], rfl⟩
  | cons c rest ih =>
    obtain ⟨nm, rel, req⟩ := c
    simp only [verifyChecksLoop]
    split
    · exact ⟨rest.map (fun c => c.1),
        by simp [reportNames, tagCategory_name, runScriptVerifyAll, runScript_name]⟩
    · obtain ⟨t, ht⟩ := ih
      exact ⟨t,
        by simp [reportNames, tagCategory_name, runScriptVerifyAll, runScript_name] at ht ⊢;
           exact ht⟩

/-- A completed (non-aborted) inner verify loop reports every check of its
category once, in catalog order. -/
theorem verifyChecksLoop_not_aborted_names (env : Env) (pp cat : String) (sof : Bool)
    (checks : List CheckTriple) (h : (verifyChecksLoop env pp cat sof checks).2 = false) :
    reportNames (verifyChecksLoop env pp cat sof checks).1 = checks.map (fun c => c.1) := by
  induction checks with
  | nil => rfl
  | cons c rest ih =>
    obtain ⟨nm, rel, req⟩ := c
    simp only [verifyChecksLoop] at h ⊢
    by_cases hcond :
        (sof && req && isFailureOutcome
          (tagCategory cat (runScriptVerifyAll (env (pp ++ "/" ++ rel)) nm))) = true
    · rw [if_pos hcond] at h
      simp at h
    · rw [if_neg hcond] at h ⊢
      have hrec := ih h
      simp [reportNames, tagCategory_name, runScriptVerifyAll, runScript_name] at hrec ⊢
      exact hrec

/-- With `--stop-on-fail` unset, the inner verify loop never aborts. -/
theorem verifyChecksLoop_no_sof_not_aborted (env : Env) (pp cat : String)
    (checks : List CheckTriple) :
    (verifyChecksLoop env pp cat false checks).2 = false := by
  induction checks with
  | nil => rfl
  | cons c rest ih =>
    obtain ⟨nm, rel, req⟩ := c
    simp only [verifyChecksLoop, Bool.false_and, Bool.if_false_left]
    simpa using ih

/-- An aborted inner verify loop contains the executed failure that caused
it. -/
theorem verifyChecksLoop_abort_failing (env : Env) (pp cat : String) (sof : Bool)
    (checks : List CheckTriple) (h : (verifyChecksLoop env pp cat sof checks).2 = true) :
    ∃ r ∈ (verifyChecksLoop env pp cat sof checks).1, isFailureOutcome r = true := by
  induction checks with
  | nil => simp [verifyChecksLoop] at h
  | cons c rest ih =>
    obtain ⟨nm, rel, req⟩ := c
    simp only [verifyChecksLoop] at h ⊢
    by_cases hcond :
        (sof && req && isFailureOutcome
          (tagCategory cat (runScriptVerifyAll (env (pp ++ "/" ++ rel)) nm))) = true
    · have hf : isFailureOutcome
          (tagCategory cat (runScriptVerifyAll (env (pp ++ "/" ++ rel)) nm)) = true := by
        have hc := hcond
        simp only [Bool.and_eq_true] at hc
        exact hc.2
      rw [if_pos hcond]
      exact ⟨_, List.mem_singleton.mpr rfl, hf⟩
    · rw [if_neg hcond] at h ⊢
      obtain ⟨r, hr, hf⟩ := ih h
      exact ⟨r, List.mem_cons_of_mem _ hr, hf⟩

/-- The suite-loop report names are always an initial segment of the gated
catalog names. -/
theorem verifySuiteLoop_names_ex (env : Env) (pp u : String) (noE2e sof : Bool)
    (cats : List Category) :
    ∃ t, reportNames (verifySuiteLoop env pp u noE2e sof cats).1 ++ t =
      catalogNames (gatedCatalog u noE2e cats) := by
  induction cats with
  | nil => exact ⟨[], rfl⟩
  | cons c cats ih =>
    by_cases h1 : (c.requiresUrl && (u == "")) = true
    · simpa [verifySuiteLoop, gatedCatalog, h1, List.filter] using ih
    · by_cases h2 : (noE2e && (c.category == "E2E Testing")) = true
      · simpa [verifySuiteLoop, gatedCatalog, h1, h2, List.filter] using ih
      · simp only [verifySuiteLoop]
        rw [if_neg h1, if_neg h2]
        have hcat : catalogNames (gatedCatalog u noE2e (c :: cats)) =
            c.checks.map (fun t => t.1) ++ catalogNames (gatedCatalog u noE2e cats) := by
          simp [gatedCatalog, List.filter, h1, h2, catalogNames]
        rw [hcat]
        by_cases hab : (verifyChecksLoop env pp c.category sof c.checks).2 = true
        · rw [if_pos hab]
          obtain ⟨t1, ht1⟩ := verifyChecksLoop_names_ex env pp c.category sof c.checks
          exact ⟨t1 ++ catalogNames (gatedCatalog u noE2e cats),
            by rw [← List.append_assoc, ht1]⟩
        · rw [if_neg hab]
          obtain ⟨t2, ht2⟩ := ih
          have hn := verifyChecksLoop_not_aborted_names env pp c.category sof c.checks
            (Bool.not_eq_true _ ▸ hab)
          refine ⟨t2, ?_⟩
          simp only [reportNames, List.map_append] at hn ht2 ⊢
          rw [List.append_assoc, ht2, hn]

/-- A completed (non-aborted) suite loop reports exactly the gated catalog,
in catalog order. -/
theorem verifySuiteLoop_not_aborted_names (env : Env) (pp u : String) (noE2e sof : Bool)
    (cats : List Category) (h : (verifySuiteLoop env pp u noE2e sof cats).2 = false) :
    reportNames (verifySuiteLoop env pp u noE2e sof cats).1 =
      catalogNames (gatedCatalog u noE2e cats) := by
  induction cats with
  | nil => rfl
  | cons c cats ih =>
    by_cases h1 : (c.requiresUrl && (u == "")) = true
    · simp only [verifySuiteLoop] at h ⊢
      rw [if_pos h1] at h ⊢
      simpa [gatedCatalog, List.filter, h1] using ih h
    · by_cases h2 : (noE2e && (c.category == "E2E Testing")) = true
      · simp only [verifySuiteLoop] at h ⊢
        rw [if_neg h1, if_pos h2] at h ⊢
        simpa [gatedCatalog, List.filter, h1, h2] using ih h
      · simp only [verifySuiteLoop] at h ⊢
        rw [if_neg h1, if_neg h2] at h ⊢
        by_cases hab : (verifyChecksLoop env pp c.category sof c.checks).2 = true
        · rw [if_pos hab] at h
          simp at h
        · rw [if_neg hab] at h ⊢
          have hn := verifyChecksLoop_not_aborted_names env pp c.category sof c.checks
            (Bool.not_eq_true _ ▸ hab)
          have hrec := ih h
          have hcat : catalogNames (gatedCatalog u noE2e (c :: cats)) =
              c.checks.map (fun t => t.1) ++ catalogNames (gatedCatalog u noE2e cats) := by
            simp [gatedCatalog, List.filter, h1, h2, catalogNames]
          rw [hcat]
          simp only [reportNames, List.map_append] at hn hrec ⊢
          rw [hn, hrec]

/-- With `--stop-on-fail` unset, the suite loop never aborts. -/
theorem verifySuiteLoop_no_sof_not_aborted (env : Env) (pp u : String) (noE2e : Bool)
    (cats : List Category) :
    (verifySuiteLoop env pp u noE2e false cats).2 = false := by
  induction cats with
  | nil => rfl
  | cons c cats ih =>
    simp only [verifySuiteLoop]
    split
    · exact ih
    · split
      · exact ih
      · rw [if_neg (by simp [verifyChecksLoop_no_sof_not_aborted])]
        simpa using ih

/-- An aborted suite loop contains the executed failure that caused it. -/
theorem verifySuiteLoop_abort_failing (env : Env) (pp u : String) (noE2e sof : Bool)
    (cats : List Category) (h : (verifySuiteLoop env pp u noE2e sof cats).2 = true) :
    ∃ r ∈ (verifySuiteLoop env pp u noE2e sof cats).1, isFailureOutcome r = true := by
  induction cats with
  | nil => simp [verifySuiteLoop] at h
  | cons c cats ih =>
    simp only [verifySuiteLoop] at h ⊢
    by_cases h1 : (c.requiresUrl && (u == "")) = true
    · rw [if_pos h1] at h ⊢
      exact ih h
    · rw [if_neg h1] at h ⊢
      by_cases h2 : (noE2e && (c.category == "E2E Testing")) = true
      · rw [if_pos h2] at h ⊢
        exact ih h
      · rw [if_neg h2] at h ⊢
        by_cases hab : (verifyChecksLoop env pp c.category sof c.checks).2 = true
        · rw [if_pos hab] at h ⊢
          exact verifyChecksLoop_abort_failing env pp c.category sof c.checks hab
        · rw [if_neg hab] at h ⊢
          obtain ⟨r, hr, hf⟩ := ih h
          exact ⟨r, List.mem_append_right _ hr, hf⟩

/-- Whether the suite loop aborts or completes, the report `verify_all.py`
prints is exactly the accumulated suite-loop result list. -/
theorem verifyAllMain_run_fst (env : Env) (pp u : String) (noE2e sof : Bool) :
    (verifyAllMain env true pp (some u) noE2e sof).1 =
      (verifySuiteLoop env pp u noE2e sof VERIFICATION_SUITE).1 := by
  simp only [verifyAllMain]
  rw [if_neg (by simp)]
  by_cases hab : (verifySuiteLoop env pp u noE2e sof VERIFICATION_SUITE).2 = true
  · rw [if_pos hab]
  · rw [if_neg hab]

/-! ### Claim theorems -/

/-- C1: for every run that passes configuration validation (valid project
path; URL present in full mode — configuration errors are the subject of
C7), the process exit code is 0 exactly when no result actually present in
the report is an executed failure.  The last conjunct bridges the result
record to the spec outcomes: a result counts against the verdict exactly
when its behaviour classifies as Failed, TimedOut or Errored, so skipped
checks (and skipped categories, which contribute no results at all) never
count. -/
theorem claim_C1_exit_code_iff_no_failure (env : Env) (pp u : String)
    (url : Option String) (sp noE2e sof : Bool) :
    ((checklistMain env true pp url sp).2 = 0 ↔
      ∀ r ∈ (checklistMain env true pp url sp).1, isFailureOutcome r = false)
    ∧ ((verifyAllMain env true pp (some u) noE2e sof).2 = 0 ↔
      ∀ r ∈ (verifyAllMain env true pp (some u) noE2e sof).1, isFailureOutcome r = false)
    ∧ (∀ tmo b nm, isFailureOutcome (runScript tmo b nm) = true ↔
        (classify tmo b = .failed ∨ classify tmo b = .timedOut ∨ classify tmo b = .errored)) := by
  refine ⟨?_, ?_, isFailureOutcome_runScript⟩
  · simp only [checklistMain]
    rw [if_neg (by simp)]
    by_cases hab : (checklistCoreLoop env pp CORE_CHECKS).2 = true
    · rw [if_pos hab]
      obtain ⟨r, hr, hf⟩ := checklistCoreLoop_abort_failing env pp CORE_CHECKS hab
      refine iff_of_false (by simp) (fun hall => ?_)
      have h2 := hall r hr
      rw [hf] at h2
      exact Bool.noConfusion h2
    · rw [if_neg hab]
      by_cases hps : printSummary (if urlTruthy url && !sp then
          (checklistCoreLoop env pp CORE_CHECKS).1 ++ checklistPerfResults env pp PERFORMANCE_CHECKS
        else (checklistCoreLoop env pp CORE_CHECKS).1) = true
      · rw [if_pos hps]
        exact iff_of_true rfl ((printSummary_true_iff _).mp hps)
      · have hps' := (Bool.not_eq_true _).mp hps
        rw [if_neg hps]
        obtain ⟨r, hr, hf⟩ := printSummary_false_failing _ hps'
        refine iff_of_false (by simp) (fun hall => ?_)
        have h2 := hall r hr
        rw [hf] at h2
        exact Bool.noConfusion h2
  · simp only [verifyAllMain]
    rw [if_neg (by simp)]
    by_cases hab : (verifySuiteLoop env pp u noE2e sof VERIFICATION_SUITE).2 = true
    · rw [if_pos hab]
      obtain ⟨r, hr, hf⟩ := verifySuiteLoop_abort_failing env pp u noE2e sof VERIFICATION_SUITE hab
      refine iff_of_false (by simp) (fun hall => ?_)
      have h2 := hall r hr
      rw [hf] at h2
      exact Bool.noConfusion h2
    · rw [if_neg hab]
      by_cases hps : printSummary (verifySuiteLoop env pp u noE2e sof VERIFICATION_SUITE).1 = true
      · rw [if_pos hps]
        exact iff_of_true rfl ((printSummary_true_iff _).mp hps)
      · have hps' := (Bool.not_eq_true _).mp hps
        rw [if_neg hps]
        obtain ⟨r, hr, hf⟩ := printSummary_false_failing _ hps'
        refine iff_of_false (by simp) (fun hall => ?_)
        have h2 := hall r hr
        rw [hf] at h2
        exact Bool.noConfusion h2

/-- C2: a descriptor whose script file is absent yields the skipped result
(the model returns it before any command is built, mirroring the early
return before `subprocess.run`), it is never an executed failure so it
never counts against the verdict, and even with `required = true` the
orchestration loops of both scripts continue past it instead of
aborting. -/
theorem claim_C2_absent_script_soft_skip (tmo : Nat) (nm : String) (env : Env)
    (pp rel cat : String) (rest : List CheckTriple) (sof : Bool)
    (h : env (pp ++ "/" ++ rel) = ScriptBehavior.absent) :
    runScript tmo .absent nm =
      { name := nm, passed := true, output := "", error := "", skipped := true,
        category := "", duration := 0 }
    ∧ classify tmo .absent = .skipped
    ∧ isFailureOutcome (runScript tmo .absent nm) = false
    ∧ failedCount [runScript tmo .absent nm] = 0
    ∧ checklistCoreLoop env pp ((nm, rel, true) :: rest) =
        (runScriptChecklist .absent nm :: (checklistCoreLoop env pp rest).1,
         (checklistCoreLoop env pp rest).2)
    ∧ verifyChecksLoop env pp cat sof ((nm, rel, true) :: rest) =
        (tagCategory cat (runScriptVerifyAll .absent nm) ::
           (verifyChecksLoop env pp cat sof rest).1,
         (verifyChecksLoop env pp cat sof rest).2) := by
  refine ⟨rfl, rfl, rfl, ?_, ?_, ?_⟩
  · simp [failedCount, isFailureOutcome, runScript]
  · simp only [checklistCoreLoop, h]
    rw [if_neg (by simp [runScriptChecklist, runScript, isFailureOutcome])]
  · simp only [verifyChecksLoop, h]
    rw [if_neg (by simp [runScriptVerifyAll, runScript, isFailureOutcome, tagCategory])]

/-- C3: with the stop-on-required-failure policy enabled (`checklist.py`
applies it unconditionally in its core phase; `verify_all.py` behind
`--stop-on-fail`), an executed failure of a required descriptor stops the
loop right after its result is appended (nothing later in catalog order is
examined), an aborting category stops all later categories, and both `main`
functions still emit the accumulated report with exit status 1. -/
theorem claim_C3_stop_on_required_failure (env : Env) (pp nm rel cat u : String)
    (rest : List CheckTriple) (url : Option String) (sp noE2e : Bool)
    (c : Category) (cats : List Category) (rs results coreResults : List CheckResult)
    (hfc : isFailureOutcome (runScriptChecklist (env (pp ++ "/" ++ rel)) nm) = true)
    (hfv : isFailureOutcome
      (tagCategory cat (runScriptVerifyAll (env (pp ++ "/" ++ rel)) nm)) = true)
    (hg1 : (c.requiresUrl && (u == "")) = false)
    (hg2 : (noE2e && (c.category == "E2E Testing")) = false)
    (hcl : verifyChecksLoop env pp c.category true c.checks = (rs, true))
    (hsl : verifySuiteLoop env pp u noE2e true VERIFICATION_SUITE = (results, true))
    (hcore : checklistCoreLoop env pp CORE_CHECKS = (coreResults, true)) :
    checklistCoreLoop env pp ((nm, rel, true) :: rest) =
        ([runScriptChecklist (env (pp ++ "/" ++ rel)) nm], true)
    ∧ verifyChecksLoop env pp cat true ((nm, rel, true) :: rest) =
        ([tagCategory cat (runScriptVerifyAll (env (pp ++ "/" ++ rel)) nm)], true)
    ∧ verifySuiteLoop env pp u noE2e true (c :: cats) = (rs, true)
    ∧ verifyAllMain env true pp (some u) noE2e true = (results, 1)
    ∧ checklistMain env true pp url sp = (coreResults, 1) := by
  refine ⟨?_, ?_, ?_, ?_, ?_⟩
  · simp only [checklistCoreLoop]
    rw [if_pos (by simp [hfc])]
  · simp only [verifyChecksLoop]
    rw [if_pos (by simp [hfv])]
  · simp only [verifySuiteLoop]
    rw [if_neg (by simp [hg1]), if_neg (by simp [hg2]), hcl]
    simp
  · simp only [verifyAllMain]
    rw [if_neg (by simp), hsl]
    simp
  · simp only [checklistMain]
    rw [if_neg (by simp), hcore]
    simp

/-- C4: with `--stop-on-fail` disabled, the full-suite run never aborts,
and the report contains exactly one result for every descriptor of every
category not gated out by the URL precondition or the `--no-e2e` skip flag,
in catalog order, regardless of which checks fail (required ones
included — the environment is arbitrary here). -/
theorem claim_C4_no_stop_all_descriptors_present (env : Env) (pp u : String)
    (noE2e : Bool) :
    (verifySuiteLoop env pp u noE2e false VERIFICATION_SUITE).2 = false
    ∧ reportNames (verifyAllMain env true pp (some u) noE2e false).1 =
        catalogNames (gatedCatalog u noE2e VERIFICATION_SUITE) := by
  have hs := verifySuiteLoop_no_sof_not_aborted env pp u noE2e VERIFICATION_SUITE
  refine ⟨hs, ?_⟩
  rw [verifyAllMain_run_fst]
  exact verifySuiteLoop_not_aborted_names env pp u noE2e false VERIFICATION_SUITE hs

/-- C5 counterexample: on a check that outlives its timeout, both executors
classify the outcome as TimedOut but record the failure detail string
"Timeout", not "timeout" as the claim states. -/
theorem claim_C5_counterexample :
    classify CHECKLIST_TIMEOUT (.runs 301 0 "" "") = CheckOutcome.timedOut
    ∧ (runScript CHECKLIST_TIMEOUT (.runs 301 0 "" "") "Security Scan").error ≠ "timeout"
    ∧ classify VERIFY_ALL_TIMEOUT (.runs 601 0 "" "") = CheckOutcome.timedOut
    ∧ (runScript VERIFY_ALL_TIMEOUT (.runs 601 0 "" "") "Lighthouse Audit").error ≠ "timeout" := by
  decide

/-- C5 amended: the hard wall-clock timeouts are 300 s (core) and 600 s
(full); a check outliving them yields outcome TimedOut with failure detail
"Timeout" (capital T); a run within budget is never classified TimedOut;
and a timed-out non-required check does not stop the loop, so subsequent
checks still execute. -/
theorem claim_C5_timeout_amended (d1 d2 d3 : Nat) (code code3 : Int)
    (out err nm : String) (env : Env) (pp rel : String) (rest : List CheckTriple)
    (h1 : 300 < d1) (h2 : 600 < d2) (h3 : d3 ≤ 300)
    (hb : env (pp ++ "/" ++ rel) = ScriptBehavior.runs d1 code out err) :
    CHECKLIST_TIMEOUT = 300 ∧ VERIFY_ALL_TIMEOUT = 600
    ∧ runScript CHECKLIST_TIMEOUT (.runs d1 code out err) nm =
        { name := nm, passed := false, output := "", error := "Timeout", skipped := false,
          category := "", duration := 300 }
    ∧ classify CHECKLIST_TIMEOUT (.runs d1 code out err) = .timedOut
    ∧ runScript VERIFY_ALL_TIMEOUT (.runs d2 code out err) nm =
        { name := nm, passed := false, output := "", error := "Timeout", skipped := false,
          category := "", duration := 600 }
    ∧ classify VERIFY_ALL_TIMEOUT (.runs d2 code out err) = .timedOut
    ∧ classify CHECKLIST_TIMEOUT (.runs d3 code3 out err) ≠ .timedOut
    ∧ checklistCoreLoop env pp ((nm, rel, false) :: rest) =
        ({ name := nm, passed := false, output := "", error := "Timeout", skipped := false,
           category := "", duration := 300 } :: (checklistCoreLoop env pp rest).1,
         (checklistCoreLoop env pp rest).2) := by
  have hc : runScript CHECKLIST_TIMEOUT (.runs d1 code out err) nm =
      { name := nm, passed := false, output := "", error := "Timeout", skipped := false,
        category := "", duration := 300 } := by
    simp [runScript, CHECKLIST_TIMEOUT, h1]
  have hv : runScript VERIFY_ALL_TIMEOUT (.runs d2 code out err) nm =
      { name := nm, passed := false, output := "", error := "Timeout", skipped := false,
        category := "", duration := 600 } := by
    simp [runScript, VERIFY_ALL_TIMEOUT, h2]
  have hnot : ¬ (300 : Nat) < d3 := not_lt.mpr h3
  refine ⟨rfl, rfl, hc, by simp [classify, CHECKLIST_TIMEOUT, h1], hv,
    by simp [classify, VERIFY_ALL_TIMEOUT, h2], ?_, ?_⟩
  · simp only [classify, CHECKLIST_TIMEOUT]
    rw [if_neg hnot]
    split <;> simp
  · simp only [checklistCoreLoop, hb, runScriptChecklist, hc]
    rw [if_neg (by simp)]

/-- C6: every launch-level fault (modelled as the `raises` behaviour, which
stands for any exception caught by the broad `except Exception` handler of
both scripts) yields a result with outcome Errored whose failure detail is
the exception message, counted as an executed failure; the executor is a
total function of the behaviour, so no fault escapes to the caller. -/
theorem claim_C6_launch_fault_errored (tmo : Nat) (msg nm : String) (b : ScriptBehavior) :
    runScript tmo (.raises msg) nm =
      { name := nm, passed := false, output := "", error := msg, skipped := false,
        category := "", duration := 0 }
    ∧ classify tmo (.raises msg) = .errored
    ∧ isFailureOutcome (runScript tmo (.raises msg) nm) = true
    ∧ (runScript tmo b nm).name = nm :=
  ⟨rfl, rfl, rfl, runScript_name tmo b nm⟩

/-- C7 counterexample: with a missing project path, both scripts exit with
status 1 (the same code that means "a check failed"), not with the distinct
configuration-error code 2 the claim requires, although zero checks run. -/
theorem claim_C7_counterexample :
    checklistMain (fun _ => ScriptBehavior.absent) false "/missing" none false = ([], 1)
    ∧ verifyAllMain (fun _ => ScriptBehavior.absent) false "/missing"
        (some "http://x") false false = ([], 1)
    ∧ (1 : Nat) ≠ 2 := by
  decide

/-- C7 amended: configuration errors are reported with zero checks
executed, but only the full-mode run without `--url` gets the distinct
usage-error exit code 2 (argparse rejects the missing required argument);
a missing or invalid project path exits 1 in both scripts, conflated with
the check-failure exit code. -/
theorem claim_C7_config_errors_amended (env : Env) (pp u : String)
    (url : Option String) (sp noE2e sof pe : Bool) :
    checklistMain env false pp url sp = ([], 1)
    ∧ verifyAllMain env pe pp none noE2e sof = ([], 2)
    ∧ verifyAllMain env false pp (some u) noE2e sof = ([], 1) :=
  ⟨rfl, rfl, rfl⟩

/-- C8: report order is catalog order.  The full-suite report names are
always an initial segment of the gated catalog names (an abort truncates,
nothing ever reorders or inserts), and with the stop policy disabled they
are exactly the gated catalog; the core-checklist report names are an
initial segment of the core names followed by the performance names, the
latter present only when a URL was supplied and performance is not
skipped; and with the URL absent (empty), the URL-requiring Performance
and E2E categories are entirely absent from the catalog walked, not
rendered as Skipped entries. -/
theorem claim_C8_report_is_catalog_order (env : Env) (pp u : String)
    (noE2e sof sp : Bool) (url : Option String) :
    (∃ t, reportNames (verifyAllMain env true pp (some u) noE2e sof).1 ++ t =
        catalogNames (gatedCatalog u noE2e VERIFICATION_SUITE))
    ∧ reportNames (verifyAllMain env true pp (some u) noE2e false).1 =
        catalogNames (gatedCatalog u noE2e VERIFICATION_SUITE)
    ∧ (∃ t, reportNames (checklistMain env true pp url sp).1 ++ t =
        CORE_CHECKS.map (fun c => c.1) ++
          (if urlTruthy url && !sp then PERFORMANCE_CHECKS.map (fun c => c.1) else []))
    ∧ (gatedCatalog "" noE2e VERIFICATION_SUITE).map (fun c => c.category) =
        ["Security", "Code Quality", "Data Layer", "Testing", "UX & Accessibility"] := by
  refine ⟨?_, ?_, ?_, ?_⟩
  · rw [verifyAllMain_run_fst]
    exact verifySuiteLoop_names_ex env pp u noE2e sof VERIFICATION_SUITE
  · rw [verifyAllMain_run_fst]
    exact verifySuiteLoop_not_aborted_names env pp u noE2e false VERIFICATION_SUITE
      (verifySuiteLoop_no_sof_not_aborted env pp u noE2e VERIFICATION_SUITE)
  · simp only [checklistMain]
    rw [if_neg (by simp)]
    by_cases hab : (checklistCoreLoop env pp CORE_CHECKS).2 = true
    · rw [if_pos hab]
      obtain ⟨t0, ht0⟩ := checklistCoreLoop_names_ex env pp CORE_CHECKS
      refine ⟨t0 ++ (if urlTruthy url && !sp then
          PERFORMANCE_CHECKS.map (fun c => c.1) else []), ?_⟩
      rw [← List.append_assoc, ht0]
    · rw [if_neg hab]
      have hn := checklistCoreLoop_not_aborted_names env pp CORE_CHECKS
        ((Bool.not_eq_true _).mp hab)
      by_cases hgate : (urlTruthy url && !sp) = true
      · rw [if_pos hgate, if_pos hgate]
        refine ⟨[], ?_⟩
        have hp := checklistPerfResults_names env pp PERFORMANCE_CHECKS
        simp only [reportNames, List.map_append, List.append_nil] at hn hp ⊢
        rw [hn, hp]
      · rw [if_neg hgate, if_neg hgate]
        exact ⟨[], by simp [hn]⟩
  · cases noE2e <;> decide

/-- C9: the spawned command for an executed check is the Python interpreter
on the script path obtained by joining the project path with the catalog
relative path, with the project path as first positional argument, and the
URL is appended as the final argument exactly when a (nonempty) URL was
supplied and the script filename contains "lighthouse" or "playwright"
case-insensitively (`urlAware`); URL-unaware checks and URL-less runs get
the bare three-element command. -/
theorem claim_C9_invocation_contract (pp rel u : String) (h : ¬ u = "") :
    (buildCmd (pp ++ "/" ++ rel) pp (some u) =
        ["python", pp ++ "/" ++ rel, pp, u] ↔ urlAware (pp ++ "/" ++ rel) = true)
    ∧ buildCmd (pp ++ "/" ++ rel) pp none = ["python", pp ++ "/" ++ rel, pp]
    ∧ (urlAware (pp ++ "/" ++ rel) = false →
        buildCmd (pp ++ "/" ++ rel) pp (some u) = ["python", pp ++ "/" ++ rel, pp]) := by
  have hu : (u != "") = true := bne_iff_ne.mpr h
  refine ⟨?_, rfl, fun ha => by simp [buildCmd, hu, ha]⟩
  by_cases ha : urlAware (pp ++ "/" ++ rel) = true
  · simp [buildCmd, hu, ha]
  · have ha' : urlAware (pp ++ "/" ++ rel) = false := (Bool.not_eq_true _).mp ha
    simp [buildCmd, hu, ha']

/-- C10: in core mode the abort-on-required-failure rule lives only inside
the core loop (the model has no enabling flag for it, mirroring the
unconditional `sys.exit(1)` in the core phase of `checklist.py`); once the
five core checks complete without abort, the performance phase appends one
result per performance check considered, for an arbitrary environment — in
particular even when the required Lighthouse Audit check fails, times out
or errors. -/
theorem claim_C10_perf_phase_never_aborts (env : Env) (pp u : String)
    (hu : ¬ u = "")
    (hna : (checklistCoreLoop env pp CORE_CHECKS).2 = false) :
    CORE_CHECKS.length = 5 ∧ PERFORMANCE_CHECKS.length = 2
    ∧ reportNames (checklistMain env true pp (some u) false).1 =
        CORE_CHECKS.map (fun c => c.1) ++ PERFORMANCE_CHECKS.map (fun c => c.1) := by
  have hu' : (u != "") = true := bne_iff_ne.mpr hu
  refine ⟨rfl, rfl, ?_⟩
  simp only [checklistMain]
  rw [if_neg (by simp), if_neg (by simp [hna]),
    if_pos (show (urlTruthy (some u) && !false) = true by simp [urlTruthy, hu'])]
  have hn := checklistCoreLoop_not_aborted_names env pp CORE_CHECKS hna
  have hp := checklistPerfResults_names env pp PERFORMANCE_CHECKS
  simp only [reportNames, List.map_append] at hn hp ⊢
  rw [hn, hp]

/-! ### Witnesses -/

/-- Witness for C2 at a concrete absent script. -/
theorem claim_C2_witness :
    runScript 300 .absent "Schema Validation" =
      { name := "Schema Validation", passed := true, output := "", error := "",
        skipped := true, category := "", duration := 0 }
    ∧ classify 300 .absent = .skipped
    ∧ isFailureOutcome (runScript 300 .absent "Schema Validation") = false
    ∧ failedCount [runScript 300 .absent "Schema Validation"] = 0
    ∧ checklistCoreLoop (fun _ => .absent) "/proj"
        [("Schema Validation", "schema_validator.py", true)] =
        (runScriptChecklist .absent "Schema Validation" ::
           (checklistCoreLoop (fun _ => .absent) "/proj" []).1,
         (checklistCoreLoop (fun _ => .absent) "/proj" []).2)
    ∧ verifyChecksLoop (fun _ => .absent) "/proj" "Data Layer" true
        [("Schema Validation", "schema_validator.py", true)] =
        (tagCategory "Data Layer" (runScriptVerifyAll .absent "Schema Validation") ::
           (verifyChecksLoop (fun _ => .absent) "/proj" "Data Layer" true []).1,
         (verifyChecksLoop (fun _ => .absent) "/proj" "Data Layer" true []).2) :=
  claim_C2_absent_script_soft_skip 300 "Schema Validation" (fun _ => .absent)
    "/proj" "schema_validator.py" "Data Layer" [] true rfl

/-- Witness for C3: an environment where every check exits 1 makes both
orchestrators abort on their first required check. -/
theorem claim_C3_witness :
    checklistCoreLoop (fun _ => ScriptBehavior.runs 1 1 "" "") "/p"
        [("Security Scan", "s.py", true)] =
      ([runScriptChecklist
          ((fun _ => ScriptBehavior.runs 1 1 "" "") ("/p" ++ "/" ++ "s.py"))
          "Security Scan"], true)
    ∧ verifyChecksLoop (fun _ => ScriptBehavior.runs 1 1 "" "") "/p" "Security" true
        [("Security Scan", "s.py", true)] =
      ([tagCategory "Security"
          (runScriptVerifyAll
            ((fun _ => ScriptBehavior.runs 1 1 "" "") ("/p" ++ "/" ++ "s.py"))
            "Security Scan")], true)
    ∧ verifySuiteLoop (fun _ => ScriptBehavior.runs 1 1 "" "") "/p" "http://x" false true
        [{ category := "Security", requiresUrl := false,
           checks := [("Security Scan", "s.py", true)] }] =
      ([{ name := "Security Scan", passed := false, output := "", error := "",
          skipped := false, category := "Security", duration := 1 }], true)
    ∧ verifyAllMain (fun _ => ScriptBehavior.runs 1 1 "" "") true "/p"
        (some "http://x") false true =
      ([{ name := "Security Scan", passed := false, output := "", error := "",
          skipped := false, category := "Security", duration := 1 }], 1)
    ∧ checklistMain (fun _ => ScriptBehavior.runs 1 1 "" "") true "/p" none false =
      ([{ name := "Security Scan", passed := false, output := "", error := "",
          skipped := false, category := "", duration := 1 }], 1) :=
  claim_C3_stop_on_required_failure (fun _ => ScriptBehavior.runs 1 1 "" "") "/p"
    "Security Scan" "s.py" "Security" "http://x" [] none false false
    { category := "Security", requiresUrl := false,
      checks := [("Security Scan", "s.py", true)] }
    []
    [{ name := "Security Scan", passed := false, output := "", error := "",
       skipped := false, category := "Security", duration := 1 }]
    [{ name := "Security Scan", passed := false, output := "", error := "",
       skipped := false, category := "Security", duration := 1 }]
    [{ name := "Security Scan", passed := false, output := "", error := "",
       skipped := false, category := "", duration := 1 }]
    (by decide) (by decide) (by decide) (by decide) (by decide) (by decide) (by decide)

/-- Witness for the amended C5 at concrete over-budget durations. -/
theorem claim_C5_witness :
    CHECKLIST_TIMEOUT = 300 ∧ VERIFY_ALL_TIMEOUT = 600
    ∧ runScript CHECKLIST_TIMEOUT (.runs 301 2 "" "") "Lint Check" =
        { name := "Lint Check", passed := false, output := "", error := "Timeout",
          skipped := false, category := "", duration := 300 }
    ∧ classify CHECKLIST_TIMEOUT (.runs 301 2 "" "") = .timedOut
    ∧ runScript VERIFY_ALL_TIMEOUT (.runs 601 2 "" "") "Lint Check" =
        { name := "Lint Check", passed := false, output := "", error := "Timeout",
          skipped := false, category := "", duration := 600 }
    ∧ classify VERIFY_ALL_TIMEOUT (.runs 601 2 "" "") = .timedOut
    ∧ classify CHECKLIST_TIMEOUT (.runs 5 0 "" "") ≠ .timedOut
    ∧ checklistCoreLoop (fun _ => ScriptBehavior.runs 301 2 "" "") "/p"
        [("Lint Check", "x.py", false)] =
        ({ name := "Lint Check", passed := false, output := "", error := "Timeout",
           skipped := false, category := "", duration := 300 } ::
          (checklistCoreLoop (fun _ => ScriptBehavior.runs 301 2 "" "") "/p" []).1,
         (checklistCoreLoop (fun _ => ScriptBehavior.runs 301 2 "" "") "/p" []).2) :=
  claim_C5_timeout_amended 301 601 5 2 0 "" "" "Lint Check"
    (fun _ => ScriptBehavior.runs 301 2 "" "") "/p" "x.py" []
    (by decide) (by decide) (by decide) rfl

/-- Witness for C9 at the Lighthouse script and a concrete URL. -/
theorem claim_C9_witness :
    (buildCmd
        ("/proj" ++ "/" ++ ".agent/skills/performance-profiling/scripts/lighthouse_audit.py")
        "/proj" (some "http://localhost:3000") =
      ["python",
       "/proj" ++ "/" ++ ".agent/skills/performance-profiling/scripts/lighthouse_audit.py",
       "/proj", "http://localhost:3000"] ↔
      urlAware
        ("/proj" ++ "/" ++ ".agent/skills/performance-profiling/scripts/lighthouse_audit.py")
        = true)
    ∧ buildCmd
        ("/proj" ++ "/" ++ ".agent/skills/performance-profiling/scripts/lighthouse_audit.py")
        "/proj" none =
      ["python",
       "/proj" ++ "/" ++ ".agent/skills/performance-profiling/scripts/lighthouse_audit.py",
       "/proj"]
    ∧ (urlAware
        ("/proj" ++ "/" ++ ".agent/skills/performance-profiling/scripts/lighthouse_audit.py")
        = false →
      buildCmd
        ("/proj" ++ "/" ++ ".agent/skills/performance-profiling/scripts/lighthouse_audit.py")
        "/proj" (some "http://localhost:3000") =
      ["python",
       "/proj" ++ "/" ++ ".agent/skills/performance-profiling/scripts/lighthouse_audit.py",
       "/proj"]) :=
  claim_C9_invocation_contract "/proj"
    ".agent/skills/performance-profiling/scripts/lighthouse_audit.py"
    "http://localhost:3000" (by decide)

/-- Witness for C10: an environment where exactly the Lighthouse script
fails (all core checks pass) still reports all seven checks. -/
theorem claim_C10_witness :
    CORE_CHECKS.length = 5 ∧ PERFORMANCE_CHECKS.length = 2
    ∧ reportNames
        (checklistMain
          (fun s => if strContains s "lighthouse" then ScriptBehavior.runs 1 1 "" ""
            else ScriptBehavior.runs 1 0 "" "")
          true "/p" (some "http://x") false).1 =
        CORE_CHECKS.map (fun c => c.1) ++ PERFORMANCE_CHECKS.map (fun c => c.1) :=
  claim_C10_perf_phase_never_aborts
    (fun s => if strContains s "lighthouse" then ScriptBehavior.runs 1 1 "" ""
      else ScriptBehavior.runs 1 0 "" "")
    "/p" "http://x" (by decide) (by decide)

end AgentKit
